import Mathlib

/-!
Verification development for the autoscaling demo harness
(load-generator/demo_scenarios.py).

The Python module is shallowly embedded: pure string processing becomes
Lean functions on `List Char` (Python strings), fallible code returns
`Except PyError`, and the effectful scenario / monitor / report drivers are
embedded as the ordered lists of observable events they perform.
-/

namespace DemoScenarios

/-- Whether a Python exception is raised; `valueError` models the
`ValueError` raised by `int(...)` on a malformed literal. -/
inductive PyError
  | valueError
deriving DecidableEq, Repr

/-- Result of invoking an external CLI process via `subprocess.run`:
its exit code and its raw standard output. -/
structure ProcResult where
  exitCode : Nat
  stdout : List Char
deriving DecidableEq, Repr

/-- Python `str.strip()` with no arguments: remove leading and trailing
whitespace characters. -/
def pyStrip (s : List Char) : List Char :=
  ((s.dropWhile Char.isWhitespace).reverse.dropWhile Char.isWhitespace).reverse

/-- Python `str.split(sep)` for a one-character separator: the result always
has one more part than the number of separator occurrences; splitting the
empty string yields one empty part. -/
def pySplit (sep : Char) : List Char → List (List Char)
  | [] => [[]]
  | c :: cs =>
    if c = sep then [] :: pySplit sep cs
    else
      match pySplit sep cs with
      | [] => [[c]]
      | p :: ps => (c :: p) :: ps

/-- Value of a run of decimal digit characters. -/
def digitsVal (l : List Char) : Nat :=
  l.foldl (fun a c => a * 10 + (c.toNat - 48)) 0

/-- Digit-run part of Python `int(...)`: defined exactly when the part is a
nonempty run of decimal digits. -/
def pyIntDigits (l : List Char) : Option Nat :=
  if l ≠ [] ∧ l.all Char.isDigit then some (digitsVal l) else none

/-- Python `int(s)`: strip surrounding whitespace, allow one optional sign,
then require a nonempty digit run; anything else raises `ValueError`,
modelled as `none`. Underscore digit grouping is not modelled (the inputs
of interest are kubectl numeric fields). -/
def pyInt (s : List Char) : Option Int :=
  match pyStrip s with
  | [] => none
  | c :: rest =>
    if c = '-' then (pyIntDigits rest).map (fun n => -(n : Int))
    else if c = '+' then (pyIntDigits rest).map (fun n => (n : Int))
    else (pyIntDigits (c :: rest)).map (fun n => (n : Int))

/-- Embedding of `AutoscalingDemo.run_kubectl` (source lines 24-32): with
`check=True`, a nonzero exit raises `CalledProcessError`, which is caught;
an error message is printed and the empty string returned. Otherwise the
stripped standard output is returned. No timeout is configured, so
`TimeoutExpired` cannot occur. -/
def run_kubectl (r : ProcResult) : List Char :=
  if r.exitCode ≠ 0 then [] else pyStrip r.stdout

/-- The dict returned by `AutoscalingDemo.get_hpa_status`. -/
structure HPAStatus where
  current_replicas : Int
  desired_replicas : Int
  cpu_utilization : Int
deriving DecidableEq, Repr

/-- Embedding of the Python expression `int(p) if p else 0` used for each
HPA field: an empty part is 0, a malformed part raises `ValueError`. -/
def intFieldOrZero (p : List Char) : Except PyError Int :=
  if p ≠ [] then
    match pyInt p with
    | some v => Except.ok v
    | none => Except.error PyError.valueError
  else Except.ok 0

/-- Embedding of the nonempty-output branch of `get_hpa_status` (source
lines 53-59): split on commas; field i is `int(parts[i])` when
`len(parts) > i and parts[i]`, else 0. The fields are evaluated in source
order, so the first malformed field raises. -/
def parseHPALine (output : List Char) : Except PyError HPAStatus :=
  let parts := pySplit ',' output
  (intFieldOrZero (parts.headD [])).bind fun cur =>
  (if 1 < parts.length then intFieldOrZero (parts.getD 1 []) else Except.ok 0).bind fun des =>
  (if 2 < parts.length then intFieldOrZero (parts.getD 2 []) else Except.ok 0).bind fun cpu =>
  Except.ok ⟨cur, des, cpu⟩

/-- Embedding of `AutoscalingDemo.get_hpa_status` (source lines 45-60): run
the kubectl jsonpath query for current replicas, desired replicas and CPU
utilization; parse a nonempty output, and return the all-zero dict when the
output is empty. -/
def get_hpa_status (r : ProcResult) : Except PyError HPAStatus :=
  let output := run_kubectl r
  if output ≠ [] then parseHPALine output else Except.ok ⟨0, 0, 0⟩

/-- Embedding of `AutoscalingDemo.get_pod_count` (source lines 34-43):
the number of newline-separated lines of the kubectl listing output, 0 when
the output is empty. -/
def get_pod_count (r : ProcResult) : Nat :=
  let output := run_kubectl r
  if output ≠ [] then (pySplit '\n' output).length else 0

/-- Status label computed on each monitor tick from the HPA sample
(source lines 76-78). -/
def scalingStatusLabel (h : HPAStatus) : String :=
  if h.desired_replicas > h.current_replicas then "Scaling Up"
  else if h.desired_replicas < h.current_replicas then "Scaling Down"
  else "Stable"

/-- Observable actions of `AutoscalingDemo.monitor_scaling`: printed lines,
the two kubectl queries per tick, the formatted per-tick status line, and
the 10-second sleep. -/
inductive MEvent
  | printLn (line : String)
  | queryPods
  | queryHPA
  | statusLine (elapsed : Nat)
  | sleepSec (n : Nat)
deriving DecidableEq, Repr

/-- Header lines printed by `monitor_scaling` before the polling loop
(source lines 64-68); the rule lines are 60 repeated characters. -/
def monitorHeader : List MEvent :=
  [MEvent.printLn ("\n" ++ String.mk (List.replicate 60 '=')),
   MEvent.printLn "KUBERNETES AUTOSCALING MONITOR",
   MEvent.printLn (String.mk (List.replicate 60 '=')),
   MEvent.printLn "Time                 Pods   CPU%   Desired  Status",
   MEvent.printLn (String.mk (List.replicate 60 '-'))]

/-- Polling loop of `monitor_scaling` (source lines 70-83): while the
elapsed time is below `duration`, query the pod count, query the HPA
status, print one status line, and sleep 10 seconds. Elapsed time is
modelled in whole seconds, advanced by the 10-second sleep each
iteration, so the loop condition is checked at each poll boundary with
elapsed time 0 on entry. -/
def monitorLoop (duration : Int) (elapsed : Nat) : List MEvent :=
  if (elapsed : Int) < duration then
    MEvent.queryPods :: MEvent.queryHPA :: MEvent.statusLine elapsed ::
      MEvent.sleepSec 10 :: monitorLoop duration (elapsed + 10)
  else []
termination_by (duration - (elapsed : Int)).toNat
decreasing_by simp_wf; omega

/-- Embedding of `AutoscalingDemo.monitor_scaling` (source lines 62-83) as
its ordered sequence of observable actions. -/
def monitor_scaling (duration : Int) : List MEvent :=
  monitorHeader ++ monitorLoop duration 0

/-- Observable actions of one scenario coroutine: printed lines, spawning
the background monitor subprocess with its duration flag, the blocking
`load_generator.py` invocation with its test type, total duration and
output file, the in-process burst load of scenario 4, `terminate()` on
the monitor process, and `wait()` on it. The source never calls
`Popen.wait` or `communicate`; the `waitMonitor` constructor exists so
that the waiting property can be stated. -/
inductive SEvent
  | printLn (line : String)
  | spawnMonitor (duration : Nat)
  | runLoadGen (testType : String) (duration : Nat) (output : String)
  | burstLoad
  | terminateMonitor
  | waitMonitor
deriving DecidableEq, Repr

/-- Embedding of `AutoscalingDemo.scenario_1_gradual_ramp` (source lines
85-113). The load-generator flags that only shape the ramp (start and end
rps, chart flag) and the url flags are elided; the test type, duration and
output file are kept. -/
def scenario_1_gradual_ramp : List SEvent :=
  [SEvent.printLn "\n SCENARIO 1: Gradual Load Increase (Scale-Out Demo)",
   SEvent.printLn (String.mk (List.replicate 70 '=')),
   SEvent.printLn "This scenario gradually increases load to trigger pod scaling",
   SEvent.printLn "Expected behavior: Pods should scale from 2 to ~8 over 10 minutes",
   SEvent.spawnMonitor 600,
   SEvent.printLn "\nStarting gradual ramp load test...",
   SEvent.runLoadGen "ramp" 600 "scenario1_results.json",
   SEvent.terminateMonitor,
   SEvent.printLn "\n Scenario 1 completed!"]

/-- Embedding of `AutoscalingDemo.scenario_2_spike_test` (source lines
115-144). -/
def scenario_2_spike_test : List SEvent :=
  [SEvent.printLn "\n SCENARIO 2: Load Spikes (Rapid Scaling Demo)",
   SEvent.printLn (String.mk (List.replicate 70 '=')),
   SEvent.printLn "This scenario sends periodic load spikes to test rapid scaling",
   SEvent.printLn "Expected behavior: Quick scale-out during spikes, scale-in during quiet periods",
   SEvent.spawnMonitor 480,
   SEvent.printLn "\nStarting spike load test...",
   SEvent.runLoadGen "spike" 480 "scenario2_results.json",
   SEvent.terminateMonitor,
   SEvent.printLn "\n Scenario 2 completed!"]

/-- Embedding of `AutoscalingDemo.scenario_3_sustained_load` (source lines
146-173). -/
def scenario_3_sustained_load : List SEvent :=
  [SEvent.printLn "\n SCENARIO 3: Sustained High Load (Stability Demo)",
   SEvent.printLn (String.mk (List.replicate 70 '=')),
   SEvent.printLn "This scenario maintains high load to test scaling stability",
   SEvent.printLn "Expected behavior: Stable scaling to handle consistent load",
   SEvent.spawnMonitor 300,
   SEvent.printLn "\nStarting sustained load test...",
   SEvent.runLoadGen "constant" 300 "scenario3_results.json",
   SEvent.terminateMonitor,
   SEvent.printLn "\n Scenario 3 completed!"]

/-- Embedding of `AutoscalingDemo.scenario_4_cpu_intensive` (source lines
175-212), whose load phase is the in-process `cpu_intensive_load`
coroutine awaited to completion. -/
def scenario_4_cpu_intensive : List SEvent :=
  [SEvent.printLn "\n SCENARIO 4: CPU-Intensive Load (CPU-Based Scaling)",
   SEvent.printLn (String.mk (List.replicate 70 '=')),
   SEvent.printLn "This scenario sends CPU-intensive requests to trigger CPU-based autoscaling",
   SEvent.printLn "Expected behavior: Scaling based on CPU utilization metrics",
   SEvent.spawnMonitor 180,
   SEvent.printLn "\nStarting CPU-intensive load test...",
   SEvent.burstLoad,
   SEvent.terminateMonitor,
   SEvent.printLn "\n Scenario 4 completed!"]

/-- The four demo scenarios. -/
inductive Scenario
  | s1
  | s2
  | s3
  | s4
deriving DecidableEq, Repr

/-- Trace of observable actions of each scenario coroutine. -/
def scenarioTrace : Scenario → List SEvent
  | Scenario.s1 => scenario_1_gradual_ramp
  | Scenario.s2 => scenario_2_spike_test
  | Scenario.s3 => scenario_3_sustained_load
  | Scenario.s4 => scenario_4_cpu_intensive

/-- Whether an event is the load phase of a scenario (a blocking
`load_generator.py` run or the awaited burst coroutine). -/
def isLoadEvent : SEvent → Bool
  | SEvent.runLoadGen _ _ _ => true
  | SEvent.burstLoad => true
  | _ => false

/-- Whether an event is the `terminate()` call on the monitor process. -/
def isTerminateEvent : SEvent → Bool
  | SEvent.terminateMonitor => true
  | _ => false

/-- Duration flag passed to the spawned monitor subprocess of a scenario,
when one is spawned. -/
def monitorDuration (s : Scenario) : Option Nat :=
  (scenarioTrace s).findSome? fun e =>
    match e with
    | SEvent.spawnMonitor d => some d
    | _ => none

/-- Total duration flag of the scenario load-generator invocation; `none`
for scenario 4, whose burst load has no duration parameter. -/
def loadDuration (s : Scenario) : Option Nat :=
  (scenarioTrace s).findSome? fun e =>
    match e with
    | SEvent.runLoadGen _ d _ => some d
    | _ => none

/-- Observable actions of the `cpu_intensive_load` coroutine: launching one
POST to the cpu-intensive endpoint as a task (with its payload iteration
count), the inter-launch `asyncio.sleep` in milliseconds, and the final
`asyncio.gather` over all launched tasks with its `return_exceptions`
flag. -/
inductive BEvent
  | launchRequest (idx iterations : Nat)
  | sleepMs (ms : Nat)
  | gatherAll (returnExceptions : Bool)
deriving DecidableEq, Repr

/-- Embedding of `cpu_intensive_load` (source lines 185-199): fifty tasks
posting `iterations = 500000`, each launch followed by a 0.1-second
stagger sleep, then one gather over all tasks with
`return_exceptions=True`. -/
def cpu_intensive_load : List BEvent :=
  ((List.range 50).flatMap fun i =>
    [BEvent.launchRequest i 500000, BEvent.sleepMs 100])
  ++ [BEvent.gatherAll true]

/-- Semantics of `asyncio.gather` over the settled outcomes of the
launched tasks: with `return_exceptions` true every outcome, exception or
value, is collected into the returned list; otherwise the first exception
propagates out of the gather. -/
def gatherOutcome (returnExceptions : Bool) (outcomes : List (Except String Nat)) :
    Except String (List (Except String Nat)) :=
  if returnExceptions then Except.ok outcomes
  else
    match outcomes.find? (fun o => match o with | Except.error _ => true | _ => false) with
    | some (Except.error e) => Except.error e
    | _ => Except.ok outcomes

/-- Whether a burst event launches a request task. -/
def isLaunchEvent : BEvent → Bool
  | BEvent.launchRequest _ _ => true
  | _ => false

/-- Whether a burst event is an inter-launch sleep. -/
def isSleepEvent : BEvent → Bool
  | BEvent.sleepMs _ => true
  | _ => false

/-- Whether a burst event is the final gather. -/
def isGatherEvent : BEvent → Bool
  | BEvent.gatherAll _ => true
  | _ => false

/-- The commands accepted by the CLI entry point (source line 286). -/
inductive Command
  | scenario1
  | scenario2
  | scenario3
  | scenario4
  | all
  | monitor
  | report
deriving DecidableEq, Repr

/-- Scenario-level actions of `main`: printed lines, running one scenario
coroutine to completion, the inter-scenario cooldown sleep, the foreground
monitor run with its duration flag, and report generation. -/
inductive MainEvent
  | printLn (line : String)
  | runScenario (s : Scenario)
  | cooldown (seconds : Nat)
  | monitorRun (duration : Int)
  | reportRun
deriving DecidableEq, Repr

/-- Embedding of the command dispatch of `main` (source lines 295-317);
`durationArg` is the parsed `--duration` flag (default 300), used only by
the monitor command. -/
def mainDispatch (cmd : Command) (durationArg : Int) : List MainEvent :=
  match cmd with
  | Command.scenario1 => [MainEvent.runScenario Scenario.s1]
  | Command.scenario2 => [MainEvent.runScenario Scenario.s2]
  | Command.scenario3 => [MainEvent.runScenario Scenario.s3]
  | Command.scenario4 => [MainEvent.runScenario Scenario.s4]
  | Command.all =>
      [MainEvent.printLn " RUNNING ALL AUTOSCALING DEMO SCENARIOS",
       MainEvent.printLn (String.mk (List.replicate 70 '=')),
       MainEvent.runScenario Scenario.s1, MainEvent.cooldown 30,
       MainEvent.runScenario Scenario.s2, MainEvent.cooldown 30,
       MainEvent.runScenario Scenario.s3, MainEvent.cooldown 30,
       MainEvent.runScenario Scenario.s4, MainEvent.reportRun]
  | Command.monitor => [MainEvent.monitorRun durationArg]
  | Command.report => [MainEvent.reportRun]

/-- Whether a main event is an operational step rather than a printed
line. -/
def isMainOp : MainEvent → Bool
  | MainEvent.printLn _ => false
  | _ => true

/-- One recorded request of a scenario results file, as read by
`generate_demo_report`: its response time in seconds and its HTTP status
code. -/
structure RequestResult where
  response_time : ℚ
  status_code : Nat
deriving DecidableEq, Repr

/-- Content of one scenario results file as consumed by
`generate_demo_report`: the truthiness of its stats entry and its recorded
results. Files that are present are modelled as well formed, since only
`FileNotFoundError` is caught by the source. -/
structure ScenarioData where
  statsNonempty : Bool
  results : List RequestResult
deriving DecidableEq, Repr

/-- Observable actions of `generate_demo_report`: printed lines, plotting
one histogram of millisecond response times for a scenario panel, and
saving the report image. -/
inductive REvent
  | printLn (line : String)
  | plotHist (times : List ℚ) (title : String)
  | savePng (filename : String)
deriving DecidableEq, Repr

/-- The per-scenario results files and panel titles iterated by
`generate_demo_report` (source lines 222-226). -/
def reportScenarios : List (String × String) :=
  [("scenario1_results.json", "Gradual Ramp"),
   ("scenario2_results.json", "Load Spikes"),
   ("scenario3_results.json", "Sustained Load")]

/-- Embedding of `AutoscalingDemo.generate_demo_report` (source lines
214-278) over a filesystem model `fs` giving the content of each results
file, `none` when opening it raises `FileNotFoundError`. For each listed
file in order: an absent file prints a not-found message and is skipped
via `continue`; a present file with truthy stats plots the histogram of
`response_time * 1000` over results with `status_code < 400` (the axis
object of panels 0-2 is always truthy). The summary-text panel and figure
layout are axis-local presentation effects carried by the final save. -/
def generate_demo_report (fs : String → Option ScenarioData) : List REvent :=
  [REvent.printLn "\n GENERATING DEMO REPORT",
   REvent.printLn (String.mk (List.replicate 50 '='))]
  ++ (reportScenarios.flatMap fun ft =>
      match fs ft.1 with
      | none => [REvent.printLn ("Results file " ++ ft.1 ++ " not found")]
      | some d =>
        if d.statsNonempty then
          [REvent.plotHist
            ((d.results.filter (fun r => r.status_code < 400)).map
              (fun r => r.response_time * 1000)) ft.2]
        else [])
  ++ [REvent.savePng "autoscaling_demo_report.png",
      REvent.printLn "Demo report saved to: autoscaling_demo_report.png"]

/-- Concatenation of instance identifiers, one per line: the shape of the
kubectl listing output consumed by `get_pod_count`. -/
def joinLines : List (List Char) → List Char
  | [] => []
  | [l] => l
  | l :: ls => l ++ '\n' :: joinLines ls

/-- Specification-side value of field `i` of the status line: the integer
value of part `i`, with any empty field and any missing trailing field
standing for 0. -/
def specFieldVal (parts : List (List Char)) (i : Nat) : Int :=
  if parts.getD i [] = [] then 0 else (digitsVal (parts.getD i []) : Int)

/-- Modelled from the spec: the scaling-policy status is a single line of
three comma-separated integers in which any field may be empty (treated
as 0). Stated from the spec words, for comparison with
`get_hpa_status`. -/
def specHPAFields (line : List Char) : HPAStatus :=
  ⟨specFieldVal (pySplit ',' line) 0,
   specFieldVal (pySplit ',' line) 1,
   specFieldVal (pySplit ',' line) 2⟩

lemma dropWhile_ws_eq_self (l : List Char)
    (h : ∀ c ∈ l.head?, c.isWhitespace = false) :
    l.dropWhile Char.isWhitespace = l := by
  cases l with
  | nil => rfl
  | cons a t =>
    have ha : a.isWhitespace = false := h a rfl
    simp [List.dropWhile_cons, ha]

lemma pyStrip_eq_self (l : List Char)
    (h1 : ∀ c ∈ l.head?, c.isWhitespace = false)
    (h2 : ∀ c ∈ l.getLast?, c.isWhitespace = false) :
    pyStrip l = l := by
  unfold pyStrip
  rw [dropWhile_ws_eq_self l h1]
  rw [dropWhile_ws_eq_self l.reverse (by
    intro c hc
    rw [List.head?_reverse] at hc
    exact h2 c hc)]
  exact List.reverse_reverse l

lemma not_ws_of_isDigit (c : Char) (h : c.isDigit = true) :
    c.isWhitespace = false := by
  cases hw : c.isWhitespace with
  | false => rfl
  | true =>
    exfalso
    have hw2 := hw
    simp [Char.isWhitespace] at hw2
    rcases hw2 with ((h1 | h1) | h1) | h1 <;> subst h1 <;> exact absurd h (by decide)

lemma pyStrip_all_digits (p : List Char) (hd : ∀ c ∈ p, c.isDigit = true) :
    pyStrip p = p := by
  refine pyStrip_eq_self p ?_ ?_
  · intro c hc
    exact not_ws_of_isDigit c (hd c (List.mem_of_mem_head? hc))
  · intro c hc
    exact not_ws_of_isDigit c (hd c (List.mem_of_mem_getLast? hc))

lemma pyInt_all_digits (p : List Char) (hne : p ≠ [])
    (hd : p.all Char.isDigit = true) :
    pyInt p = some ((digitsVal p : Int)) := by
  have hmem : ∀ c ∈ p, c.isDigit = true := fun c hc => List.all_eq_true.mp hd c hc
  have hstrip : pyStrip p = p := pyStrip_all_digits p hmem
  cases p with
  | nil => exact absurd rfl hne
  | cons c cs =>
    have hc : c.isDigit = true := hmem c (by simp)
    have hm : c ≠ '-' := by intro h; subst h; exact absurd hc (by decide)
    have hp : c ≠ '+' := by intro h; subst h; exact absurd hc (by decide)
    simp only [pyInt, hstrip]
    rw [if_neg hm, if_neg hp]
    simp only [pyIntDigits]
    rw [if_pos ⟨by simp, hd⟩]
    rfl

lemma intFieldOrZero_digits (p : List Char) (hd : p.all Char.isDigit = true) :
    intFieldOrZero p = Except.ok (if p = [] then 0 else (digitsVal p : Int)) := by
  by_cases hp : p = []
  · subst hp
    simp [intFieldOrZero]
  · rw [if_neg hp]
    simp only [intFieldOrZero]
    rw [if_pos hp, pyInt_all_digits p hp hd]

lemma pySplit_ne_nil (sep : Char) (l : List Char) : pySplit sep l ≠ [] := by
  induction l with
  | nil => simp [pySplit]
  | cons c cs ih =>
    simp only [pySplit]
    by_cases h : c = sep
    · simp [h]
    · rw [if_neg h]
      cases hr : pySplit sep cs <;> simp

lemma pySplit_sepFree (sep : Char) (p : List Char) (h : sep ∉ p) :
    pySplit sep p = [p] := by
  induction p with
  | nil => rfl
  | cons c cs ih =>
    have hc : c ≠ sep := fun he => h (he ▸ List.mem_cons_self c cs)
    have ih2 := ih (fun hm => h (List.mem_cons_of_mem c hm))
    simp only [pySplit]
    rw [if_neg hc, ih2]

lemma pySplit_append_sep (sep : Char) (p s : List Char) (h : sep ∉ p) :
    pySplit sep (p ++ sep :: s) = p :: pySplit sep s := by
  induction p with
  | nil => simp [pySplit]
  | cons c cs ih =>
    have hc : c ≠ sep := fun he => h (he ▸ List.mem_cons_self c cs)
    have ih2 : pySplit sep (cs.append (sep :: s)) = cs :: pySplit sep s :=
      ih (fun hm => h (List.mem_cons_of_mem c hm))
    simp only [List.cons_append, pySplit]
    rw [if_neg hc, ih2]

lemma joinLines_ne_nil (ids : List (List Char)) (hne : ids ≠ [])
    (h : ∀ nm ∈ ids, nm ≠ []) : joinLines ids ≠ [] := by
  cases ids with
  | nil => exact absurd rfl hne
  | cons nm rest =>
    cases rest with
    | nil => exact h nm (by simp)
    | cons b t =>
      show nm ++ '\n' :: joinLines (b :: t) ≠ []
      simp

lemma joinLines_head?_mem (ids : List (List Char)) (h : ∀ nm ∈ ids, nm ≠ []) :
    ∀ c ∈ (joinLines ids).head?, ∃ nm ∈ ids, c ∈ nm := by
  cases ids with
  | nil => simp [joinLines]
  | cons nm rest =>
    cases rest with
    | nil =>
      intro c hc
      exact ⟨nm, by simp, List.mem_of_mem_head? hc⟩
    | cons b t =>
      intro c hc
      rw [show joinLines (nm :: b :: t) = nm ++ '\n' :: joinLines (b :: t) from rfl,
        List.head?_append_of_ne_nil _ (h nm (by simp))] at hc
      exact ⟨nm, by simp, List.mem_of_mem_head? hc⟩

lemma joinLines_getLast?_mem (ids : List (List Char)) (h : ∀ nm ∈ ids, nm ≠ []) :
    ∀ c ∈ (joinLines ids).getLast?, ∃ nm ∈ ids, c ∈ nm := by
  induction ids with
  | nil => simp [joinLines]
  | cons nm rest ih =>
    cases rest with
    | nil =>
      intro c hc
      exact ⟨nm, by simp, List.mem_of_mem_getLast? hc⟩
    | cons b t =>
      intro c hc
      rw [show joinLines (nm :: b :: t) = nm ++ '\n' :: joinLines (b :: t) from rfl,
        List.getLast?_append_cons] at hc
      have hrest : ∀ x ∈ b :: t, x ≠ [] := fun x hx => h x (List.mem_cons_of_mem nm hx)
      have hbt : joinLines (b :: t) ≠ [] := joinLines_ne_nil _ (by simp) hrest
      obtain ⟨x, xs, hx⟩ : ∃ x xs, joinLines (b :: t) = x :: xs := by
        cases hj : joinLines (b :: t) with
        | nil => exact absurd hj hbt
        | cons x xs => exact ⟨x, xs, rfl⟩
      rw [hx, List.getLast?_cons_cons, ← hx] at hc
      obtain ⟨nm2, hnm2, hcnm2⟩ := ih hrest c hc
      exact ⟨nm2, List.mem_cons_of_mem nm hnm2, hcnm2⟩

lemma joinLines_split (ids : List (List Char)) (hne : ids ≠ [])
    (h : ∀ nm ∈ ids, '\n' ∉ nm) :
    pySplit '\n' (joinLines ids) = ids := by
  induction ids with
  | nil => exact absurd rfl hne
  | cons nm rest ih =>
    cases rest with
    | nil => exact pySplit_sepFree '\n' nm (h nm (by simp))
    | cons b t =>
      rw [show joinLines (nm :: b :: t) = nm ++ '\n' :: joinLines (b :: t) from rfl,
        pySplit_append_sep '\n' nm _ (h nm (by simp)),
        ih (by simp) (fun x hx => h x (List.mem_cons_of_mem nm hx))]

lemma headD_mem (parts : List (List Char)) (hne : parts ≠ []) :
    parts.headD [] ∈ parts := by
  cases parts with
  | nil => exact absurd rfl hne
  | cons a t => simp

lemma headD_eq_getD (parts : List (List Char)) :
    parts.headD [] = parts.getD 0 [] := by
  cases parts <;> rfl

lemma getD_mem_of_lt (parts : List (List Char)) (i : Nat)
    (h : i < parts.length) : parts.getD i [] ∈ parts := by
  rw [List.getD_eq_getElem _ _ h]
  exact List.getElem_mem h

lemma fieldStep (parts : List (List Char)) (i : Nat)
    (hw : ∀ p ∈ parts, p.all Char.isDigit = true) :
    (if i < parts.length then intFieldOrZero (parts.getD i []) else Except.ok 0)
      = Except.ok (specFieldVal parts i) := by
  by_cases h : i < parts.length
  · rw [if_pos h, intFieldOrZero_digits _ (hw _ (getD_mem_of_lt parts i h))]
    rfl
  · rw [if_neg h]
    unfold specFieldVal
    rw [List.getD_eq_default _ _ (by omega), if_pos rfl]

lemma parseHPALine_digits (out : List Char)
    (hw : ∀ p ∈ pySplit ',' out, p.all Char.isDigit = true) :
    parseHPALine out = Except.ok (specHPAFields out) := by
  have hne := pySplit_ne_nil ',' out
  have hlen : 0 < (pySplit ',' out).length := List.length_pos.mpr hne
  have e0 : intFieldOrZero ((pySplit ',' out).headD [])
      = Except.ok (specFieldVal (pySplit ',' out) 0) := by
    have := fieldStep (pySplit ',' out) 0 hw
    rw [if_pos hlen] at this
    rw [headD_eq_getD, this]
  have e1 := fieldStep (pySplit ',' out) 1 hw
  have e2 := fieldStep (pySplit ',' out) 2 hw
  simp only [parseHPALine, e0, e1, e2, specHPAFields]
  rfl

lemma specHPAFields_nil : specHPAFields [] = ⟨0, 0, 0⟩ := by decide

/-- Claim C1 counterexample: scenario 1 never waits for the monitor
process to terminate — its trace calls `terminate()` on the monitor but
contains no wait/join on the monitor process at all, so the orchestrator
does not wait for the monitor to fully terminate before returning. -/
theorem c1_counterexample : SEvent.waitMonitor ∉ scenario_1_gradual_ramp := by
  decide

/-- Claim C1 (amended): after the load phase completes, every scenario
issues exactly one `terminate()` on the monitor process, strictly after
its single load-phase event, but never waits for the monitor process to
exit before returning; monitor termination is therefore only requested,
not awaited, and in-flight monitor activity is not synchronised with. -/
theorem c1_terminate_after_load_without_wait (s : Scenario) :
    (scenarioTrace s).countP isLoadEvent = 1 ∧
    (scenarioTrace s).countP isTerminateEvent = 1 ∧
    (scenarioTrace s).findIdx isLoadEvent < (scenarioTrace s).findIdx isTerminateEvent ∧
    SEvent.waitMonitor ∉ scenarioTrace s := by
  cases s <;> exact ⟨by decide, by decide, by decide, by decide⟩

/-- Claim C2 counterexample: a successful (zero-exit) control-plane query
whose output is malformed (a non-empty, non-numeric field) makes
`get_hpa_status` raise `ValueError` from `int(...)` instead of returning a
zero-filled sample, so the query can fail outward. -/
theorem c2_counterexample :
    get_hpa_status ⟨0, "abc".toList⟩ = Except.error PyError.valueError := by
  rfl

/-- Claim C2 (amended): for every control-plane query that fails with a
nonzero exit status, `get_hpa_status` returns the sample with every field
substituted by 0 and never raises; only malformed zero-exit output (a
non-empty non-numeric field) escapes as a `ValueError`, and no timeout is
configured on the query. -/
theorem c2_nonzero_exit_zero_sample (r : ProcResult) (hr : r.exitCode ≠ 0) :
    get_hpa_status r = Except.ok ⟨0, 0, 0⟩ := by
  simp [get_hpa_status, run_kubectl, hr]

/-- Witness for C2: a concrete failed query with exit status 1. -/
theorem c2_witness : get_hpa_status ⟨1, "3,7,9".toList⟩ = Except.ok ⟨0, 0, 0⟩ :=
  c2_nonzero_exit_zero_sample ⟨1, "3,7,9".toList⟩ (by decide)

/-- Claim C3: for every HPA status sample, the monitor status label is
"Scaling Up" exactly when desired exceeds current replicas, "Scaling Down"
exactly when desired is below current, and "Stable" otherwise, including
when desired equals current. -/
theorem c3_status_label_cases (h : HPAStatus) :
    scalingStatusLabel h =
      match compare h.desired_replicas h.current_replicas with
      | Ordering.gt => "Scaling Up"
      | Ordering.lt => "Scaling Down"
      | Ordering.eq => "Stable" := by
  unfold scalingStatusLabel
  rcases lt_trichotomy h.desired_replicas h.current_replicas with h1 | h1 | h1
  · rw [compare_lt_iff_lt.mpr h1, if_neg (by omega), if_pos h1]
  · rw [compare_eq_iff_eq.mpr h1, if_neg (by omega), if_neg (by omega)]
  · rw [compare_gt_iff_gt.mpr h1, if_pos h1]

/-- Claim C6: for every scenario whose load profile has a total duration,
the background monitor is spawned with a duration flag at least that
total duration, so the monitor lifetime covers the load phase (600, 480
and 300 seconds for scenarios 1, 2 and 3; scenario 4 has no duration-based
profile). -/
theorem c6_monitor_covers_load (s : Scenario) (d : Nat)
    (hd : loadDuration s = some d) :
    ∃ m, monitorDuration s = some m ∧ d ≤ m := by
  cases s
  case s1 =>
    rw [show loadDuration Scenario.s1 = some 600 from rfl] at hd
    obtain rfl : (600 : Nat) = d := Option.some.inj hd
    exact ⟨600, rfl, by omega⟩
  case s2 =>
    rw [show loadDuration Scenario.s2 = some 480 from rfl] at hd
    obtain rfl : (480 : Nat) = d := Option.some.inj hd
    exact ⟨480, rfl, by omega⟩
  case s3 =>
    rw [show loadDuration Scenario.s3 = some 300 from rfl] at hd
    obtain rfl : (300 : Nat) = d := Option.some.inj hd
    exact ⟨300, rfl, by omega⟩
  case s4 =>
    rw [show loadDuration Scenario.s4 = none from rfl] at hd
    exact absurd hd (by simp)

/-- Witness for C6: scenario 1 has load duration 600 and its monitor is
spawned with duration 600. -/
theorem c6_witness : ∃ m, monitorDuration Scenario.s1 = some m ∧ 600 ≤ m :=
  c6_monitor_covers_load Scenario.s1 600 rfl

/-- Claim C7: the burst load launches exactly 50 request issuances, each
followed by a fixed 0.1-second (100 ms) stagger sleep, ends with a single
gather that waits for all launched tasks after every launch, and gathers
with `return_exceptions` set, so every per-request error is collected into
the result list and never propagates out of the batch. -/
theorem c7_burst_fanout (outcomes : List (Except String Nat)) :
    (cpu_intensive_load.filter isLaunchEvent).length = 50 ∧
    cpu_intensive_load.filter isSleepEvent = List.replicate 50 (BEvent.sleepMs 100) ∧
    cpu_intensive_load.countP isGatherEvent = 1 ∧
    cpu_intensive_load.getLast? = some (BEvent.gatherAll true) ∧
    gatherOutcome true outcomes = Except.ok outcomes :=
  ⟨by decide, by decide, by decide, by decide, rfl⟩

/-- Claim C8: the all command executes scenarios 1 to 4 strictly in that
order, with a fixed 30-second cooldown between every pair of consecutive
scenarios, and generates the report only after scenario 4, as the final
step; this holds whatever duration flag was parsed. -/
theorem c8_all_sequence (d : Int) :
    (mainDispatch Command.all d).filter isMainOp =
      [MainEvent.runScenario Scenario.s1, MainEvent.cooldown 30,
       MainEvent.runScenario Scenario.s2, MainEvent.cooldown 30,
       MainEvent.runScenario Scenario.s3, MainEvent.cooldown 30,
       MainEvent.runScenario Scenario.s4, MainEvent.reportRun] := rfl

/-- Claim C9: for every duration at most 0, the monitor prints only its
header and returns: the polling loop body never executes, so no kubectl
query, sample or status line event occurs. -/
theorem c9_monitor_nonpositive_duration (d : Int) (hd : d ≤ 0) :
    monitor_scaling d = monitorHeader := by
  have hloop : monitorLoop d 0 = [] := by
    unfold monitorLoop
    rw [if_neg (by push_cast; omega)]
  unfold monitor_scaling
  rw [hloop, List.append_nil]

/-- Witness for C9: duration 0 yields exactly the header events. -/
theorem c9_witness : monitor_scaling 0 = monitorHeader :=
  c9_monitor_nonpositive_duration 0 (by decide)

/-- Claim C4: for every status line kubectl produces (a zero-exit query
whose stripped output splits on commas into possibly empty digit fields),
`get_hpa_status` returns a record carrying all three keys, equal to the
spec-side parse in which every empty field and every missing trailing
field is 0. -/
theorem c4_status_line_parse (r : ProcResult) (h0 : r.exitCode = 0)
    (hw : ∀ p ∈ pySplit ',' (pyStrip r.stdout), p.all Char.isDigit = true) :
    get_hpa_status r = Except.ok (specHPAFields (pyStrip r.stdout)) := by
  have hrk : run_kubectl r = pyStrip r.stdout := by
    simp [run_kubectl, h0]
  by_cases hne : pyStrip r.stdout = []
  · simp only [get_hpa_status, hrk, hne]
    rw [if_neg (fun hcon => hcon rfl), specHPAFields_nil]
  · simp only [get_hpa_status, hrk]
    rw [if_pos hne]
    exact parseHPALine_digits _ hw

/-- Witness for C4: output with an empty first field, a second field 5
and a missing third field parses to the sample with zeros substituted. -/
theorem c4_witness : get_hpa_status ⟨0, ",5".toList⟩ = Except.ok ⟨0, 5, 0⟩ :=
  (c4_status_line_parse ⟨0, ",5".toList⟩ rfl (by decide)).trans (by rfl)

/-- Claim C5: for every kubectl instance listing (whitespace-free,
nonempty identifiers joined one per line), the running pod count equals
the number of listed identifiers, and an empty listing yields a count of
0 (the empty identifier list produces the empty output). -/
theorem c5_pod_count_lines (ids : List (List Char))
    (h : ∀ nm ∈ ids, nm ≠ [] ∧ ∀ c ∈ nm, c.isWhitespace = false) :
    get_pod_count ⟨0, joinLines ids⟩ = ids.length := by
  have hne : ∀ nm ∈ ids, nm ≠ [] := fun nm hm => (h nm hm).1
  have hnw : ∀ nm ∈ ids, ∀ c ∈ nm, c.isWhitespace = false :=
    fun nm hm => (h nm hm).2
  have hnl : ∀ nm ∈ ids, '\n' ∉ nm := by
    intro nm hm hc
    exact absurd (hnw nm hm '\n' hc) (by decide)
  cases hids : ids with
  | nil =>
    show get_pod_count ⟨0, joinLines []⟩ = 0
    rfl
  | cons a rest =>
    subst hids
    have hids_ne : a :: rest ≠ [] := by simp
    have hstrip : pyStrip (joinLines (a :: rest)) = joinLines (a :: rest) := by
      refine pyStrip_eq_self _ ?_ ?_
      · intro c hc
        obtain ⟨nm, hnm, hcnm⟩ := joinLines_head?_mem _ hne c hc
        exact hnw nm hnm c hcnm
      · intro c hc
        obtain ⟨nm, hnm, hcnm⟩ := joinLines_getLast?_mem _ hne c hc
        exact hnw nm hnm c hcnm
    have hj_ne : joinLines (a :: rest) ≠ [] := joinLines_ne_nil _ hids_ne hne
    have hrk : run_kubectl ⟨0, joinLines (a :: rest)⟩ = pyStrip (joinLines (a :: rest)) := by
      simp [run_kubectl]
    simp only [get_pod_count, hrk, hstrip]
    rw [if_pos hj_ne, joinLines_split _ hids_ne hnl]

/-- Witness for C5: two pod identifiers on two lines give a count of 2. -/
theorem c5_witness :
    get_pod_count ⟨0, joinLines ["pod-a".toList, "pod-b".toList]⟩ = 2 :=
  c5_pod_count_lines ["pod-a".toList, "pod-b".toList] (by decide)

/-- Claim C10: report generation tolerates absent per-scenario result
files: whenever any listed results file is absent, a not-found message is
printed for it and generation continues, and for every filesystem state
the report image is still saved, with the final saved-report message as
the last action — a FileNotFoundError never aborts report generation. -/
theorem c10_report_missing_files (fs : String → Option ScenarioData)
    (fn title : String) (hmem : (fn, title) ∈ reportScenarios)
    (habs : fs fn = none) :
    REvent.printLn ("Results file " ++ fn ++ " not found") ∈ generate_demo_report fs
    ∧ REvent.savePng "autoscaling_demo_report.png" ∈ generate_demo_report fs
    ∧ (generate_demo_report fs).getLast? =
        some (REvent.printLn "Demo report saved to: autoscaling_demo_report.png") := by
  refine ⟨?_, ?_, ?_⟩
  · unfold generate_demo_report
    refine List.mem_append_left _ (List.mem_append_right _ ?_)
    rw [List.mem_flatMap]
    refine ⟨(fn, title), hmem, ?_⟩
    simp [habs]
  · unfold generate_demo_report
    refine List.mem_append_right _ ?_
    simp
  · have hsplit : generate_demo_report fs =
        ([REvent.printLn "\n GENERATING DEMO REPORT",
          REvent.printLn (String.mk (List.replicate 50 '='))]
         ++ (reportScenarios.flatMap fun ft =>
              match fs ft.1 with
              | none => [REvent.printLn ("Results file " ++ ft.1 ++ " not found")]
              | some d =>
                if d.statsNonempty then
                  [REvent.plotHist
                    ((d.results.filter (fun r => r.status_code < 400)).map
                      (fun r => r.response_time * 1000)) ft.2]
                else [])
         ++ [REvent.savePng "autoscaling_demo_report.png"])
        ++ [REvent.printLn "Demo report saved to: autoscaling_demo_report.png"] := by
      simp [generate_demo_report]
    rw [hsplit, List.getLast?_concat]

/-- Witness for C10: with every results file absent, the not-found message
for scenario 1 is printed, the report is still saved, and the saved-report
message is the final action. -/
theorem c10_witness :
    REvent.printLn ("Results file " ++ "scenario1_results.json" ++ " not found")
        ∈ generate_demo_report (fun _ => none)
    ∧ REvent.savePng "autoscaling_demo_report.png" ∈ generate_demo_report (fun _ => none)
    ∧ (generate_demo_report (fun _ => none)).getLast? =
        some (REvent.printLn "Demo report saved to: autoscaling_demo_report.png") :=
  c10_report_missing_files (fun _ => none) "scenario1_results.json" "Gradual Ramp"
    (by decide) rfl

end DemoScenarios
